import Mathlib

/-!
Verification of the browser-automation control plane: a shallow embedding of
the CDP driver (src/cdp/client.ts), the bridge transport (src/bridge/client.ts)
and the agent loop (src/background/index.ts), with theorems settling the
specification claims about them.
-/

/-! ## String utilities mirroring the JavaScript string operations used -/

/-- Whether the list `cs` begins with the list `p` (JS `String.startsWith`). -/
def startsWithChars : List Char → List Char → Bool
  | _, [] => true
  | [], _ :: _ => false
  | c :: cs, d :: ds => c = d && startsWithChars cs ds

/-- Whether `sub` occurs contiguously inside `cs` (JS `String.includes`). -/
def containsChars : List Char → List Char → Bool
  | [], sub => sub.isEmpty
  | c :: cs, sub => startsWithChars (c :: cs) sub || containsChars cs sub

/-- JS `s.includes(sub)`. -/
def jsIncludes (s sub : String) : Bool := containsChars s.toList sub.toList

/-- JS `s.startsWith(p)`. -/
def jsStartsWith (s p : String) : Bool := startsWithChars s.toList p.toList

/-- The single-quote character. -/
def quoteChar : Char := Char.ofNat 39

/-- The double-quote character. -/
def dquoteChar : Char := Char.ofNat 34

/-- Whether `c` is one of the two quote characters of the character class
used by the `:contains` regex. -/
def isQuoteChar (c : Char) : Bool := c = quoteChar || c = dquoteChar

namespace CDP

/-! ## CDP driver state and raw command layer (src/cdp/client.ts) -/

/-- Driver state: the `attached` flag of `CDPClient`. -/
structure CState where
  attached : Bool
deriving DecidableEq, Repr

/-- A protocol-level call issued to the browser: the `chrome.debugger.attach`
call, a `chrome.debugger.sendCommand` with the given method name, or the
`chrome.debugger.detach` call. -/
inductive Call where
  | attachCmd : Call
  | cmd (method : String) : Call
  | detachCmd : Call
deriving DecidableEq, Repr

/-- The `CDPResult` success/error envelope (data abstracted away). -/
structure CDPRes where
  success : Bool
  error : Option String
deriving DecidableEq, Repr

/-- A successful `CDPResult`. -/
def okRes : CDPRes := { success := true, error := none }

/-- `CDPClient.send`: fails without issuing a protocol call when not attached;
otherwise issues the command, whose outcome is given by the oracle
(modelling whether `chrome.debugger.sendCommand` throws). -/
def send (s : CState) (oracle : String → Bool) (method : String) :
    CDPRes × List Call :=
  if s.attached = false then
    ({ success := false, error := some "Debugger not attached" }, [])
  else if oracle method then
    (okRes, [Call.cmd method])
  else
    ({ success := false, error := some ("CDP command failed: " ++ method) },
     [Call.cmd method])

/-- `CDPClient.attach`: returns success immediately when already attached
(no protocol calls); otherwise performs `chrome.debugger.attach` (outcome
`attachOk`) and, on success, enables the DOM, Page, Runtime and Network
domains, ignoring the individual results of the enables. -/
def attach (s : CState) (attachOk : Bool) (oracle : String → Bool) :
    CDPRes × CState × List Call :=
  if s.attached then
    (okRes, s, [])
  else if attachOk then
    let s1 : CState := { attached := true }
    let c1 := (send s1 oracle "DOM.enable").2
    let c2 := (send s1 oracle "Page.enable").2
    let c3 := (send s1 oracle "Runtime.enable").2
    let c4 := (send s1 oracle "Network.enable").2
    (okRes, s1, Call.attachCmd :: (c1 ++ c2 ++ c3 ++ c4))
  else
    ({ success := false, error := some "Failed to attach debugger" }, s,
     [Call.attachCmd])

/-- `CDPClient.type`: issues `Input.insertText` through `send` and returns
success unconditionally, discarding the send result. -/
def typeText (s : CState) (oracle : String → Bool) (_text : String) :
    CDPRes × List Call :=
  let r := send s oracle "Input.insertText"
  (okRes, r.2)

/-- `CDPClient.click`: dispatches `mousePressed` then `mouseReleased` through
`send` and returns success unconditionally. -/
def click (s : CState) (oracle : String → Bool) (_x _y : ℚ) :
    CDPRes × List Call :=
  let r1 := send s oracle "Input.dispatchMouseEvent"
  let r2 := send s oracle "Input.dispatchMouseEvent"
  (okRes, r1.2 ++ r2.2)

/-- `CDPClient.scroll`: dispatches one `mouseWheel` through `send` and returns
success unconditionally. -/
def scroll (s : CState) (oracle : String → Bool) (_dx _dy : Int) :
    CDPRes × List Call :=
  let r := send s oracle "Input.dispatchMouseEvent"
  (okRes, r.2)

/-! ## Screenshot parameters (`CDPClient.captureScreenshot`) -/

/-- Screenshot image format accepted by `Page.captureScreenshot`. -/
inductive ImgFormat where
  | jpeg : ImgFormat
  | png : ImgFormat
  | webp : ImgFormat
deriving DecidableEq, Repr

/-- The parameter object passed to `Page.captureScreenshot`. -/
structure ShotParams where
  format : ImgFormat
  quality : Option Nat
  captureBeyondViewport : Bool
deriving DecidableEq, Repr

/-- `CDPClient.captureScreenshot(format, quality)`: the quality sent is the
quality given by the caller if any, else 80 when the format is jpeg, else omitted. -/
def captureScreenshot (format : ImgFormat) (quality : Option Nat) : ShotParams :=
  { format := format
    quality :=
      match quality with
      | some q => some q
      | none => if format = ImgFormat.jpeg then some 80 else none
    captureBeyondViewport := false }

/-- `CDPClient.captureScreenshot()` called with no arguments: the declared
default for the `format` parameter is png and `quality` is undefined. -/
def captureScreenshotDefault : ShotParams :=
  captureScreenshot ImgFormat.png none

/-! ## Selector validation and `:contains` text extraction
(`CDPClient.clickElement`, src/cdp/client.ts lines 195-252) -/

/-- The `isInvalidSelector` predicate of `clickElement`, with the JavaScript
operator precedence (`&&` binds tighter than `||`). -/
def isInvalidSelector (sel : String) : Bool :=
  jsIncludes sel ":contains(" ||
  jsIncludes sel ":has(" ||
  (jsIncludes sel ":not(" && jsIncludes sel ":contains") ||
  jsStartsWith sel "$" ||
  jsIncludes sel "$("

/-- Match the regex tail after the capture group: an optional quote
(greedy, with backtracking) followed by a closing parenthesis. -/
def quoteThenParen : List Char → Bool
  | [] => false
  | c :: rest =>
    if isQuoteChar c then
      match rest with
      | d :: _ => d = Char.ofNat 41
      | [] => false
    else c = Char.ofNat 41

/-- Greedy match of the capture group (one or more non-quote characters)
against a prefix of `cs`,
backtracking from length `k` downward until the remainder matches the
regex tail. Returns the captured characters. -/
def tryCaptureLen (cs : List Char) : Nat → Option (List Char)
  | 0 => none
  | k + 1 =>
    if quoteThenParen (cs.drop (k + 1)) then some (cs.take (k + 1))
    else tryCaptureLen cs k

/-- Length of the longest prefix of `cs` containing no quote character
(the maximal extent of the greedy capture group). -/
def nonQuoteRunLen : List Char → Nat
  | [] => 0
  | c :: cs => if isQuoteChar c then 0 else nonQuoteRunLen cs + 1

/-- Match the capture group followed by the regex tail at the start of `cs`. -/
def matchCapture (cs : List Char) : Option (List Char) :=
  tryCaptureLen cs (nonQuoteRunLen cs)

/-- Match the part of the regex after the literal colon-contains-paren
token at the start of `cs`: an optional leading quote (greedy; if it is
consumed and the rest fails, the no-quote alternative fails too because
the capture class excludes quotes), the capture group, an optional quote,
and a closing parenthesis. -/
def matchAfterParen (cs : List Char) : Option (List Char) :=
  match cs with
  | [] => none
  | c :: rest =>
    if isQuoteChar c then matchCapture rest
    else matchCapture (c :: rest)

/-- Leftmost-match scan of the whole `:contains(...)` regex over `cs`
(JS `sel.match(...)` semantics: try each start position left to right). -/
def scanContains : List Char → Option (List Char)
  | [] => none
  | c :: rest =>
    if startsWithChars (c :: rest) (":contains(".toList) then
      match matchAfterParen ((c :: rest).drop 10) with
      | some cap => some cap
      | none => scanContains rest
    else scanContains rest

/-- The `extractContainsText` helper of `clickElement`: the first capture of
the contains-extraction regex applied to `sel`: the text between the
parentheses with surrounding quotes stripped. -/
def extractContainsText (sel : String) : Option String :=
  (scanContains sel.toList).map (fun cs => String.mk cs)

/-! ## Page model for the text-fallback search -/

/-- A DOM element as seen by the injected text-search script: its
`textContent` and its bounding client rect after `scrollIntoView`. -/
structure PageElem where
  textContent : String
  left : ℚ
  top : ℚ
  width : ℚ
  height : ℚ
deriving DecidableEq, Repr

/-- Centre of the bounding rect of an element
(`rect.left + rect.width/2`, `rect.top + rect.height/2`). -/
def elemCentre (e : PageElem) : ℚ × ℚ :=
  (e.left + e.width / 2, e.top + e.height / 2)

/-- The anchors and buttons of the page, in document order, as enumerated by
the injected script (the anchor query and the button selector list). -/
structure Page where
  links : List PageElem
  buttons : List PageElem
deriving Repr

/-- Character-wise lowercasing (JS `String.toLowerCase`). -/
def jsToLower (s : String) : String :=
  String.mk (s.toList.map Char.toLower)

/-- Scan a list of elements for the first whose (truthy, i.e. non-empty)
lowercased text contains the lowercased search text; return its centre. -/
def findByText (needle : String) : List PageElem → Option (ℚ × ℚ)
  | [] => none
  | e :: rest =>
    if e.textContent ≠ "" &&
        jsIncludes (jsToLower e.textContent) (jsToLower needle) then
      some (elemCentre e)
    else findByText needle rest

/-- The injected text search: links first, then buttons. -/
def textSearch (p : Page) (needle : String) : Option (ℚ × ℚ) :=
  match findByText needle p.links with
  | some xy => some xy
  | none => findByText needle p.buttons

/-! ## clickElement -/

/-- One step of `clickElement`, recorded for the trace: the text-fallback
evaluation (step 1), the coordinate-resolution evaluation (step 2), a raw
mouse click at coordinates, the JavaScript `element.click()` evaluation
(step 3), the focus evaluation (step 4), and the Enter key dispatch. -/
inductive ClickStep where
  | textFallbackEval : ClickStep
  | coordEval : ClickStep
  | mouseClick (x y : ℚ) : ClickStep
  | jsClickEval : ClickStep
  | focusEval : ClickStep
  | enterKey : ClickStep
deriving DecidableEq, Repr

/-- The `method` parameter of `clickElement`. -/
inductive CMethod where
  | auto : CMethod
  | js : CMethod
  | focus : CMethod
deriving DecidableEq, Repr

/-- Environment for one `clickElement` call: the page (for the text
fallback), whether `Runtime.evaluate` round-trips succeed (`evalOk`), the
centre-and-size returned by the step-2 coordinate script (`none` when the
selector matches no element), and whether steps 3 and 4 find the element. -/
structure ClickEnv where
  page : Page
  evalOk : Bool
  queryRect : Option (ℚ × ℚ × ℚ × ℚ)
  jsClickFound : Bool
  focusFound : Bool

/-- The invalid-selector failure result of `clickElement`. -/
def invalidSelectorRes (sel : String) : CDPRes :=
  { success := false
    error := some ("Invalid selector (jQuery-style not supported): " ++ sel) }

/-- `CDPClient.clickElement(selector, method)`: the invalid-selector guard
with text fallback (step 1), the coordinate click (step 2, `auto` only), the
JavaScript click (step 3, `auto` or `js`), and focus-plus-Enter (step 4,
`auto` or `focus`); failure only when every applicable layer fails. Returns
the result and the trace of steps taken. -/
def clickElement (env : ClickEnv) (sel : String) (m : CMethod) :
    CDPRes × List ClickStep :=
  if isInvalidSelector sel then
    match extractContainsText sel with
    | some t =>
      match (if env.evalOk then textSearch env.page t else none) with
      | some (x, y) =>
        (okRes, [ClickStep.textFallbackEval, ClickStep.mouseClick x y])
      | none => (invalidSelectorRes sel, [ClickStep.textFallbackEval])
    | none => (invalidSelectorRes sel, [])
  else
    let s2 : Option (ℚ × ℚ) :=
      if m = CMethod.auto then
        match (if env.evalOk then env.queryRect else none) with
        | some (x, y, w, h) =>
          if 0 < w ∧ 0 < h ∧ 0 ≤ x ∧ 0 ≤ y then some (x, y) else none
        | none => none
      else none
    let t2 : List ClickStep := if m = CMethod.auto then [ClickStep.coordEval] else []
    match s2 with
    | some (x, y) => (okRes, t2 ++ [ClickStep.mouseClick x y])
    | none =>
      let t3 : List ClickStep :=
        if m = CMethod.auto ∨ m = CMethod.js then [ClickStep.jsClickEval] else []
      if (m = CMethod.auto ∨ m = CMethod.js) ∧
          env.evalOk = true ∧ env.jsClickFound = true then
        (okRes, t2 ++ t3)
      else
        let t4 : List ClickStep :=
          if m = CMethod.auto ∨ m = CMethod.focus then [ClickStep.focusEval] else []
        if (m = CMethod.auto ∨ m = CMethod.focus) ∧
            env.evalOk = true ∧ env.focusFound = true then
          (okRes, t2 ++ t3 ++ t4 ++ [ClickStep.enterKey])
        else
          ({ success := false
             error := some ("All click methods failed for: " ++ sel) },
           t2 ++ t3 ++ t4)

end CDP

namespace Bridge

/-! ## Bridge client session state (src/bridge/client.ts) -/

/-- The session-relevant mutable fields of `BridgeClient`. -/
structure BState where
  sessionId : Option String
  currentGoal : Option String
  stepNumber : Nat
  stopped : Bool
deriving DecidableEq, Repr

/-- An outbound bridge message relevant to the session protocol
(payloads beyond the session id and step number are abstracted). -/
inductive Msg where
  | startSessionMsg (goal model : String) : Msg
  | stopSessionMsg (sessionId : String) : Msg
  | observationMsg (sessionId : String) (stepNumber : Nat) : Msg
deriving DecidableEq, Repr

/-- An action message received from the policy, with the fields the session
state machine inspects (`action.action`, `selector`/`element`,
`clickMethod`, the `done` flag). -/
structure ActMsg where
  action : String
  selector : String
  element : String
  clickMethod : Option String
  isDone : Bool
deriving DecidableEq, Repr

/-- `BridgeClient.startSession(goal, model)`: stores the goal, resets the
step counter to 0, clears the stopped flag, and sends `start_session` with
the model defaulted to gpt-4o-mini (a JS or-default, so an
empty string also falls back). The session id is left unchanged. -/
def startSession (s : BState) (goal : String) (model : Option String) :
    BState × Msg :=
  ({ s with currentGoal := some goal, stepNumber := 0, stopped := false },
   Msg.startSessionMsg goal
     (match model with
      | some m => if m = "" then "gpt-4o-mini" else m
      | none => "gpt-4o-mini"))

/-- `BridgeClient.stopSession()`: sets the stopped flag first, sends
`stop_session` with the current session id (or the empty string), then
clears the session id, goal and step counter. -/
def stopSession (s : BState) : BState × Msg :=
  ({ sessionId := none, currentGoal := none, stepNumber := 0, stopped := true },
   Msg.stopSessionMsg (s.sessionId.getD ""))

/-- `BridgeClient.sendObservation(observation)`: returns false without
sending when the session is stopped or there is no session id; otherwise
increments the internal step counter by exactly 1 and sends the
observation. The message literal writes `step_number: this.stepNumber`
(the freshly incremented counter) but the trailing `...observation` spread
immediately overrides that field with the `step_number` the caller put in
the payload — the parameter type omits only `type` and `session_id`, so
`step_number` stays required — making the incremented-counter write dead:
the wire message carries `obsStep`, the caller-supplied value. -/
def sendObservation (s : BState) (obsStep : Nat) : Bool × BState × Option Msg :=
  if s.stopped = true ∨ s.sessionId = none then (false, s, none)
  else
    let n := s.stepNumber + 1
    (true, { s with stepNumber := n },
     some (Msg.observationMsg (s.sessionId.getD "") obsStep))

/-- The agent-loop call site `sendObservationToBridge`
(src/background/index.ts line 1789): the payload passes
`step_number: bridgeClient?.currentStep || 0`, read before
`sendObservation` increments the counter — the pre-increment value. -/
def sendObservationFromLoop (s : BState) : Bool × BState × Option Msg :=
  sendObservation s s.stepNumber

/-- The effect of `BridgeClient.executeAction` on the session state: when
stopped it returns immediately without touching the state; a `done` action
sets the stopped flag; every other action leaves the session state
unchanged (its CDP side effects are outside this state). -/
def executeAction (s : BState) (a : ActMsg) : BState :=
  if s.stopped then s
  else if a.action = "done" then { s with stopped := true }
  else s

/-- An event hitting the bridge client after a session is underway: a call
to `sendObservation` with some caller-supplied payload step number, or an
action arriving and being executed. -/
inductive SessEvent where
  | obsEvent (obsStep : Nat) : SessEvent
  | actEvent (a : ActMsg) : SessEvent

/-- Run one event, returning the new state, the messages sent, and the
results returned by `sendObservation` calls. -/
def runEvent (s : BState) : SessEvent → BState × List Msg × List Bool
  | SessEvent.obsEvent n =>
    let r := sendObservation s n
    (r.2.1, r.2.2.toList, [r.1])
  | SessEvent.actEvent a => (executeAction s a, [], [])

/-- Run a sequence of events, accumulating sent messages and
`sendObservation` results. -/
def runEvents (s : BState) : List SessEvent → BState × List Msg × List Bool
  | [] => (s, [], [])
  | e :: es =>
    let r1 := runEvent s e
    let r2 := runEvents r1.1 es
    (r2.1, r1.2.1 ++ r2.2.1, r1.2.2 ++ r2.2.2)

/-- Iterate the agent-loop observation send `k` times, collecting the sent
messages. -/
def iterObs : BState → Nat → BState × List Msg
  | s, 0 => (s, [])
  | s, Nat.succ k =>
    let r := sendObservationFromLoop s
    let rest := iterObs r.2.1 k
    (rest.1, r.2.2.toList ++ rest.2)

/-- The step number carried by a message (0 for non-observations). -/
def msgStep : Msg → Nat
  | Msg.observationMsg _ n => n
  | _ => 0

/-! ## Reconnect backoff (`BridgeClient.attemptReconnect`, constructor) -/

/-- The reconnect-relevant configuration fields of `BridgeConfig`. -/
structure ReconnConfig where
  reconnectDelay : Nat
  maxReconnectAttempts : Nat
deriving DecidableEq, Repr

/-- The constructor default `config.reconnectDelay || 1000` (JS `||`: both
an absent value and 0 fall back to 1000). -/
def mkReconnectDelay (v : Option Nat) : Nat :=
  match v with
  | some n => if n = 0 then 1000 else n
  | none => 1000

/-- The constructor default `config.maxReconnectAttempts || 5`. -/
def mkMaxReconnectAttempts (v : Option Nat) : Nat :=
  match v with
  | some n => if n = 0 then 5 else n
  | none => 5

/-- `BridgeClient.attemptReconnect`: given the current attempt counter,
either gives up (no reconnect scheduled, `error` state emitted) when the
counter has reached the cap, or increments the counter to `n` and schedules
a reconnect after `reconnectDelay * 2 ^ (n - 1)` milliseconds. Returns
(scheduled delay, whether `error` was emitted, new counter). -/
def attemptReconnect (cfg : ReconnConfig) (attempts : Nat) :
    Option Nat × Bool × Nat :=
  if cfg.maxReconnectAttempts ≤ attempts then (none, true, attempts)
  else
    let n := attempts + 1
    (some (cfg.reconnectDelay * 2 ^ (n - 1)), false, n)

end Bridge

/-- The list `[a, a+1, ..., a+k-1]`. -/
def natRangeFrom : Nat → Nat → List Nat
  | _, 0 => []
  | a, k + 1 => a :: natRangeFrom (a + 1) k

namespace Agent

/-! ## Agent loop of `startAgent` (src/background/index.ts lines 1502-1696) -/

/-- The UI-triggered max-steps constant (`MAX_STEPS = 15`). -/
def MAX_STEPS : Nat := 15

/-- Why the `onAction` handler stopped the agent. -/
inductive StopReason where
  | doneAction : StopReason
  | maxSteps : StopReason
deriving DecidableEq, Repr

/-- The UI-triggered agent loop, starting from bridge step counter `sn`
(1 after the initial observation). Each handler invocation computes
`currentStep = sn + 1`, stops on a done action, stops when
`MAX_STEPS ≤ currentStep`, and otherwise executes the action and sends the
next observation (incrementing the bridge step counter). `policy label`
tells whether the action arriving at that labelled invocation is done.
Returns the labels of invocations that executed an action, and the label at
which the loop stopped (with the reason), `none` if fuel ran out. -/
def runLoop (policy : Nat → Bool) : Nat → Nat → List Nat × Option (Nat × StopReason)
  | 0, _ => ([], none)
  | fuel + 1, sn =>
    let label := sn + 1
    if policy label then ([], some (label, StopReason.doneAction))
    else if MAX_STEPS ≤ label then ([], some (label, StopReason.maxSteps))
    else
      let rest := runLoop policy fuel (sn + 1)
      (label :: rest.1, rest.2)

/-! ## Loop-break escalation (src/background/index.ts lines 1566-1589) -/

/-- One entry of the `actionHistory` kept by the handler: the action kind, normalized
selector, and consecutive-repetition count. -/
structure HistEntry where
  action : String
  selector : String
  count : Nat
deriving DecidableEq, Repr

/-- The selector normalization of the handler: the selector field if
truthy, else the element field (a JS or-chain in which the empty string
is falsy). -/
def normSelector (a : Bridge.ActMsg) : String :=
  if a.selector = "" then a.element else a.selector

/-- The repeated-action escalation of the `onAction` handler: if the
incoming action matches the last history entry in kind and selector, bump
its count; at count ≥ 2 on a `click`, set the click-method hint to `js`; at
count ≥ 3 with a selector containing `btn`, `submit` or `search`, rewrite
the action kind to `submit`. Otherwise push a fresh history entry. Returns
the (possibly rewritten) action and the new history. -/
def escalate (hist : List HistEntry) (a : Bridge.ActMsg) :
    Bridge.ActMsg × List HistEntry :=
  let sel := normSelector a
  match hist.getLast? with
  | some e =>
    if e.action = a.action ∧ e.selector = sel then
      let cnt := e.count + 1
      let a1 := if 2 ≤ cnt ∧ a.action = "click"
        then { a with clickMethod := some "js" } else a
      let a2 := if 3 ≤ cnt ∧
          (jsIncludes sel "btn" || jsIncludes sel "submit" ||
           jsIncludes sel "search")
        then { a1 with action := "submit" } else a1
      (a2, hist.dropLast ++ [{ e with count := cnt }])
    else (a, hist ++ [{ action := a.action, selector := sel, count := 1 }])
  | none => (a, hist ++ [{ action := a.action, selector := sel, count := 1 }])

/-! ## Session action log (src/background/index.ts lines 423, 1520, 1624-1630) -/

/-- One record of `sessionActionLog`. -/
structure ActionRecord where
  action : String
  selector : String
  success : Bool
  url : String
  error : Option String
deriving DecidableEq, Repr

/-- `sessionActionLog.push(record)`: a plain append to the end of the log. -/
def pushActionRecord (log : List ActionRecord) (r : ActionRecord) :
    List ActionRecord :=
  log ++ [r]

/-- `sessionActionLog = []` at session start (`startAgent`). -/
def resetActionLog : List ActionRecord := []

/-- The screenshot parameters used by `sendObservationToBridge`
(`client.captureScreenshot` with jpeg and quality 30, line 1733). -/
def agentObservationScreenshot : CDP.ShotParams :=
  CDP.captureScreenshot CDP.ImgFormat.jpeg (some 30)

end Agent

/-! ## Helper lemmas -/

/-- Once the stopped flag is set, any sequence of observation and action
events leaves the bridge state unchanged, sends nothing, and makes every
observation call return false. -/
theorem runEvents_of_stopped :
    ∀ (evs : List Bridge.SessEvent) (s : Bridge.BState), s.stopped = true →
      (Bridge.runEvents s evs).1 = s ∧
      (Bridge.runEvents s evs).2.1 = [] ∧
      (Bridge.runEvents s evs).2.2.all (fun b => !b) = true := by
  intro evs
  induction evs with
  | nil => intro s hs; simp [Bridge.runEvents]
  | cons e es ih =>
    intro s hs
    have hev : Bridge.runEvent s e = (s, (Bridge.runEvent s e).2.1, (Bridge.runEvent s e).2.2) ∧
        (Bridge.runEvent s e).2.1 = [] ∧
        (Bridge.runEvent s e).2.2.all (fun b => !b) = true := by
      cases e with
      | obsEvent n => simp [Bridge.runEvent, Bridge.sendObservation, hs]
      | actEvent a => simp [Bridge.runEvent, Bridge.executeAction, hs]
    obtain ⟨ia, ib, ic⟩ := ih s hs
    refine ⟨?_, ?_, ?_⟩
    · show (Bridge.runEvents (Bridge.runEvent s e).1 es).1 = s
      rw [show (Bridge.runEvent s e).1 = s from congrArg Prod.fst hev.1.symm ▸ rfl]
      exact ia
    · show (Bridge.runEvent s e).2.1 ++ (Bridge.runEvents (Bridge.runEvent s e).1 es).2.1 = []
      rw [hev.2.1, show (Bridge.runEvent s e).1 = s from congrArg Prod.fst hev.1.symm ▸ rfl]
      simpa using ib
    · show ((Bridge.runEvent s e).2.2 ++ (Bridge.runEvents (Bridge.runEvent s e).1 es).2.2).all
        (fun b => !b) = true
      rw [show (Bridge.runEvent s e).1 = s from congrArg Prod.fst hev.1.symm ▸ rfl]
      simp only [List.all_append]
      rw [hev.2.2, ic]
      rfl

/-- Sending `k` agent-loop observations from a live session with internal
step counter `n` emits exactly the wire step numbers `n, n + 1, ...,
n + k - 1` (the caller-supplied pre-increment values), while the internal
counter advances by exactly 1 per send, ending at `n + k`. -/
theorem iterObs_steps :
    ∀ (k : Nat) (s : Bridge.BState) (sid : String),
      s.stopped = false → s.sessionId = some sid →
      (Bridge.iterObs s k).2.map Bridge.msgStep
        = natRangeFrom s.stepNumber k
      ∧ (Bridge.iterObs s k).1.stepNumber = s.stepNumber + k := by
  intro k
  induction k with
  | zero => intro s sid h1 h2; simp [Bridge.iterObs, natRangeFrom]
  | succ k ih =>
    intro s sid h1 h2
    have hobs : Bridge.sendObservationFromLoop s =
        (true, { s with stepNumber := s.stepNumber + 1 },
         some (Bridge.Msg.observationMsg sid s.stepNumber)) := by
      simp [Bridge.sendObservationFromLoop, Bridge.sendObservation, h1, h2]
    have ihs := ih { s with stepNumber := s.stepNumber + 1 } sid h1 h2
    constructor
    · simp only [Bridge.iterObs, hobs, Option.toList_some, List.map_cons,
        List.map_append]
      simp only [natRangeFrom]
      simp [Bridge.msgStep, ihs.1]
    · simp only [Bridge.iterObs, hobs]
      rw [ihs.2]
      simp only []
      omega

/-- `natRangeFrom` lists are strictly increasing. -/
theorem natRangeFrom_chain :
    ∀ (k a : Nat), List.Chain' (fun x y => x < y) (natRangeFrom a k) := by
  intro k
  induction k with
  | zero => intro a; simp [natRangeFrom]
  | succ k ih =>
    intro a
    rw [show natRangeFrom a (k + 1) = a :: natRangeFrom (a + 1) k from rfl,
      List.chain'_cons']
    refine ⟨?_, ih (a + 1)⟩
    intro b hb
    cases k with
    | zero => simp [natRangeFrom] at hb
    | succ k' =>
      rw [show natRangeFrom (a + 1) (k' + 1) = (a + 1) :: natRangeFrom (a + 2) k' from rfl]
        at hb
      simp only [List.head?_cons, Option.mem_some_iff] at hb
      omega

/-! ## Claim theorems -/

/-- C1: once the stopped flag of a session is set (by `stopSession` or by
executing a `done` action), no further observation is ever sent for that
session: every subsequent `sendObservation` returns false without sending,
no matter what actions arrive. -/
theorem stopped_session_no_more_observations
    (s sA sB : Bridge.BState) (aDone : Bridge.ActMsg)
    (evs : List Bridge.SessEvent)
    (hstop : s.stopped = true) (hdone : aDone.action = "done") :
    (Bridge.runEvents s evs).2.1 = []
    ∧ (Bridge.runEvents s evs).2.2.all (fun b => !b) = true
    ∧ (Bridge.stopSession sA).1.stopped = true
    ∧ (Bridge.executeAction sB aDone).stopped = true := by
  obtain ⟨_, h2, h3⟩ := runEvents_of_stopped evs s hstop
  refine ⟨h2, h3, rfl, ?_⟩
  by_cases h : sB.stopped <;> simp [Bridge.executeAction, h, hdone]

/-- Witness for C1 at a concrete stopped state and event list. -/
theorem stopped_session_no_more_observations_witness :
    (Bridge.runEvents ⟨some "s1", some "g", 3, true⟩
      [Bridge.SessEvent.obsEvent 3,
       Bridge.SessEvent.actEvent ⟨"click", "#a", "", none, false⟩,
       Bridge.SessEvent.obsEvent 4]).2.1 = []
    ∧ (Bridge.runEvents ⟨some "s1", some "g", 3, true⟩
      [Bridge.SessEvent.obsEvent 3,
       Bridge.SessEvent.actEvent ⟨"click", "#a", "", none, false⟩,
       Bridge.SessEvent.obsEvent 4]).2.2.all (fun b => !b) = true
    ∧ (Bridge.stopSession ⟨some "s1", some "g", 3, false⟩).1.stopped = true
    ∧ (Bridge.executeAction ⟨some "s1", some "g", 3, false⟩
        ⟨"done", "", "", none, true⟩).stopped = true :=
  stopped_session_no_more_observations
    ⟨some "s1", some "g", 3, true⟩ ⟨some "s1", some "g", 3, false⟩
    ⟨some "s1", some "g", 3, false⟩ ⟨"done", "", "", none, true⟩
    [Bridge.SessEvent.obsEvent 3,
     Bridge.SessEvent.actEvent ⟨"click", "#a", "", none, false⟩,
     Bridge.SessEvent.obsEvent 4] rfl rfl

/-- C2 (code bug): `startSession` does reset the internal step counter to 0
and each `sendObservation` does increment it by exactly 1 before sending,
but the trailing `...observation` spread overrides the freshly incremented
`step_number` with the caller-supplied pre-increment value
(`bridgeClient?.currentStep || 0` at the agent-loop call site), so the
wire stream of `k` observations after a session start carries
0, 1, ..., k - 1: strictly increasing but starting at 0, not at 1 as the
specification states — the write of the incremented counter into the
message literal is dead code. -/
theorem observation_stream_starts_at_zero
    (s : Bridge.BState) (goal : String) (model : Option String)
    (sid : String) (k : Nat)
    (hsid : s.sessionId = some sid) (hk : 1 ≤ k) :
    ((Bridge.startSession s goal model).1).stepNumber = 0
    ∧ (Bridge.iterObs (Bridge.startSession s goal model).1 k).2.map Bridge.msgStep
        = natRangeFrom 0 k
    ∧ (Bridge.iterObs (Bridge.startSession s goal model).1 k).1.stepNumber = k
    ∧ ((Bridge.iterObs (Bridge.startSession s goal model).1 k).2.map
        Bridge.msgStep).head? = some 0
    ∧ ((Bridge.iterObs (Bridge.startSession s goal model).1 k).2.map
        Bridge.msgStep).head? ≠ some 1
    ∧ List.Chain' (fun a b => a < b) (natRangeFrom 0 k) := by
  obtain ⟨hsteps, hctr⟩ := iterObs_steps k (Bridge.startSession s goal model).1 sid
    (by simp [Bridge.startSession]) (by simp [Bridge.startSession, hsid])
  have hsteps0 : (Bridge.iterObs (Bridge.startSession s goal model).1 k).2.map
      Bridge.msgStep = natRangeFrom 0 k := by
    simpa [Bridge.startSession] using hsteps
  have hhead : ((Bridge.iterObs (Bridge.startSession s goal model).1 k).2.map
      Bridge.msgStep).head? = some 0 := by
    rw [hsteps0]
    cases k with
    | zero => omega
    | succ k => rfl
  refine ⟨rfl, hsteps0, by simpa [Bridge.startSession] using hctr, hhead, ?_,
    natRangeFrom_chain k 0⟩
  rw [hhead]
  simp

/-- Witness for C2 with three agent-loop observations after a session
start: the wire step numbers are 0, 1, 2. -/
theorem observation_stream_starts_at_zero_witness :
    ((Bridge.startSession ⟨some "sid", none, 7, true⟩ "g" none).1).stepNumber = 0
    ∧ (Bridge.iterObs (Bridge.startSession ⟨some "sid", none, 7, true⟩ "g" none).1 3).2.map
        Bridge.msgStep = natRangeFrom 0 3
    ∧ (Bridge.iterObs (Bridge.startSession ⟨some "sid", none, 7, true⟩ "g" none).1 3).1.stepNumber
        = 3
    ∧ ((Bridge.iterObs (Bridge.startSession ⟨some "sid", none, 7, true⟩ "g" none).1 3).2.map
        Bridge.msgStep).head? = some 0
    ∧ ((Bridge.iterObs (Bridge.startSession ⟨some "sid", none, 7, true⟩ "g" none).1 3).2.map
        Bridge.msgStep).head? ≠ some 1
    ∧ List.Chain' (fun a b => a < b) (natRangeFrom 0 3) :=
  observation_stream_starts_at_zero
    ⟨some "sid", none, 7, true⟩ "g" none "sid" 3 rfl (by omega)

/-- With a policy that never answers `done` and enough fuel, the agent loop
started `d` steps below the cap executes the action at every label up to
`MAX_STEPS - 1` and stops, with reason max-steps, at the invocation whose
label is exactly `MAX_STEPS`. -/
theorem runLoop_no_done :
    ∀ (d fuel sn : Nat) (policy : Nat → Bool), (∀ n, policy n = false) →
      sn + d = Agent.MAX_STEPS → 1 ≤ d → d ≤ fuel →
      Agent.runLoop policy fuel sn
        = (natRangeFrom (sn + 1) (d - 1),
           some (Agent.MAX_STEPS, Agent.StopReason.maxSteps)) := by
  intro d
  induction d with
  | zero => intro fuel sn policy hp hsum h1 h2; omega
  | succ d ih =>
    intro fuel sn policy hp hsum h1 hfuel
    cases fuel with
    | zero => omega
    | succ fuel =>
      cases d with
      | zero =>
        have hlabel : sn + 1 = Agent.MAX_STEPS := by omega
        simp [Agent.runLoop, hp, hlabel, natRangeFrom]
      | succ d =>
        have hlt : ¬ Agent.MAX_STEPS ≤ sn + 1 := by
          simp only [Agent.MAX_STEPS] at hsum ⊢; omega
        have ihr := ih fuel (sn + 1) policy hp (by omega) (by omega) (by omega)
        simp only [Agent.runLoop, hp, if_false, hlt, if_true, Bool.false_eq_true,
          if_neg, ihr]
        rw [show d + 1 + 1 - 1 = (d + 1 - 1) + 1 from by omega]
        simp [natRangeFrom]

/-- C3: a UI-triggered session whose policy never answers `done` terminates
exactly when the step counter of the handler reaches MAX_STEPS = 15: the loop
reaches the invocation labelled step 15 and stops there with the max-steps
reason, it does not stop at step 14, and no step 16 ever occurs. -/
theorem ui_session_stops_exactly_at_15
    (policy : Nat → Bool) (fuel : Nat)
    (hnd : ∀ n, policy n = false) (hfuel : 14 ≤ fuel) :
    Agent.runLoop policy fuel 1
      = (natRangeFrom 2 13, some (15, Agent.StopReason.maxSteps))
    ∧ (Agent.runLoop policy fuel 1).2 ≠ some (14, Agent.StopReason.maxSteps)
    ∧ (Agent.runLoop policy fuel 1).2 ≠ some (16, Agent.StopReason.maxSteps)
    ∧ 16 ∉ (Agent.runLoop policy fuel 1).1
    ∧ 15 ∉ (Agent.runLoop policy fuel 1).1 := by
  have h := runLoop_no_done 14 fuel 1 policy hnd (by rfl) (by omega) hfuel
  refine ⟨h, ?_, ?_, ?_, ?_⟩
  · rw [h]; simp [Agent.MAX_STEPS]
  · rw [h]; simp [Agent.MAX_STEPS]
  · rw [h]; decide
  · rw [h]; decide

/-- Witness for C3 with the constantly-not-done policy and fuel 20. -/
theorem ui_session_stops_exactly_at_15_witness :
    Agent.runLoop (fun _ => false) 20 1
      = (natRangeFrom 2 13, some (15, Agent.StopReason.maxSteps))
    ∧ (Agent.runLoop (fun _ => false) 20 1).2
        ≠ some (14, Agent.StopReason.maxSteps)
    ∧ (Agent.runLoop (fun _ => false) 20 1).2
        ≠ some (16, Agent.StopReason.maxSteps)
    ∧ 16 ∉ (Agent.runLoop (fun _ => false) 20 1).1
    ∧ 15 ∉ (Agent.runLoop (fun _ => false) 20 1).1 :=
  ui_session_stops_exactly_at_15 (fun _ => false) 20 (fun _ => rfl) (by omega)

/-- A successful `attach` leaves the driver attached. -/
theorem attach_success_attached
    (s : CDP.CState) (aOk : Bool) (o : String → Bool)
    (hsucc : (CDP.attach s aOk o).1.success = true) :
    (CDP.attach s aOk o).2.1.attached = true := by
  by_cases h : s.attached
  · simp [CDP.attach, h]
  · by_cases ha : aOk
    · simp [CDP.attach, h, ha]
    · simp [CDP.attach, h, ha, CDP.okRes] at hsucc

/-- C4: `attach` is idempotent: on an already-attached driver it returns
success without issuing any protocol call (no second `chrome.debugger.attach`
and no domain enables) and leaves the state unchanged, so attach followed
by attach is equivalent to a single attach. -/
theorem attach_idempotent
    (s sPrev : CDP.CState) (aOk aOkPrev : Bool) (o oPrev : String → Bool)
    (hatt : s.attached = true)
    (hsucc : (CDP.attach sPrev aOkPrev oPrev).1.success = true) :
    CDP.attach s aOk o = (CDP.okRes, s, [])
    ∧ CDP.attach (CDP.attach sPrev aOkPrev oPrev).2.1 aOk o
        = (CDP.okRes, (CDP.attach sPrev aOkPrev oPrev).2.1, []) := by
  constructor
  · simp [CDP.attach, hatt]
  · have h2 := attach_success_attached sPrev aOkPrev oPrev hsucc
    generalize hgen : (CDP.attach sPrev aOkPrev oPrev).2.1 = s1 at h2 ⊢
    simp [CDP.attach, h2]

/-- Witness for C4: re-attaching after a successful fresh attach. -/
theorem attach_idempotent_witness :
    CDP.attach ⟨true⟩ true (fun _ => true) = (CDP.okRes, ⟨true⟩, [])
    ∧ CDP.attach (CDP.attach ⟨false⟩ true (fun _ => true)).2.1 true (fun _ => true)
        = (CDP.okRes, (CDP.attach ⟨false⟩ true (fun _ => true)).2.1, []) :=
  attach_idempotent ⟨true⟩ ⟨false⟩ true true (fun _ => true) (fun _ => true)
    rfl rfl

/-- A selector containing the `:contains(` token is flagged invalid. -/
theorem contains_is_invalid (sel : String)
    (hsel : jsIncludes sel ":contains(" = true) :
    CDP.isInvalidSelector sel = true := by
  simp [CDP.isInvalidSelector, hsel]

/-- The outcome of the text-fallback branch of `clickElement`: a mouse
click at the found centre, or the invalid-selector failure. -/
def textFallbackOutcome (sel : String) (found : Option (ℚ × ℚ)) :
    CDP.CDPRes × List CDP.ClickStep :=
  match found with
  | some xy => (CDP.okRes,
      [CDP.ClickStep.textFallbackEval, CDP.ClickStep.mouseClick xy.1 xy.2])
  | none => (CDP.invalidSelectorRes sel, [CDP.ClickStep.textFallbackEval])

/-- C5: a selector containing `:contains(...)` routes through the
text-fallback path: the step-2 coordinate-click expression is never
evaluated; with the quoted text extracted, the centre of the first matching
anchor or button is clicked, and if nothing matches (or the evaluation
cannot run) the call fails with the invalid-selector error. -/
theorem contains_selector_text_fallback
    (env : CDP.ClickEnv) (sel t : String) (m : CDP.CMethod)
    (found : Option (ℚ × ℚ))
    (hsel : jsIncludes sel ":contains(" = true)
    (hex : CDP.extractContainsText sel = some t)
    (hsearch : (if env.evalOk then CDP.textSearch env.page t else none) = found) :
    CDP.ClickStep.coordEval ∉ (CDP.clickElement env sel m).2
    ∧ CDP.clickElement env sel m = textFallbackOutcome sel found := by
  have hinv := contains_is_invalid sel hsel
  subst hsearch
  have hclick : CDP.clickElement env sel m =
      textFallbackOutcome sel
        (if env.evalOk then CDP.textSearch env.page t else none) := by
    simp only [CDP.clickElement, hinv, if_true, hex]
    cases h2 : (if env.evalOk = true then CDP.textSearch env.page t else none) with
    | some xy => cases xy with | mk x y => rfl
    | none => rfl
  refine ⟨?_, hclick⟩
  rw [hclick]
  cases h2 : (if env.evalOk = true then CDP.textSearch env.page t else none) with
  | some xy => simp [textFallbackOutcome]
  | none => simp [textFallbackOutcome]

/-- Witness for C5: a `:contains` selector clicking the centre of the first
matching link. -/
theorem contains_selector_text_fallback_witness :
    CDP.ClickStep.coordEval ∉
      (CDP.clickElement
        ⟨⟨[⟨"Sign in to your account", 10, 20, 100, 30⟩], []⟩,
          true, none, false, false⟩
        "a:contains(\"Sign in\")" CDP.CMethod.auto).2
    ∧ CDP.clickElement
        ⟨⟨[⟨"Sign in to your account", 10, 20, 100, 30⟩], []⟩,
          true, none, false, false⟩
        "a:contains(\"Sign in\")" CDP.CMethod.auto
      = textFallbackOutcome "a:contains(\"Sign in\")"
          (some (CDP.elemCentre ⟨"Sign in to your account", 10, 20, 100, 30⟩)) :=
  contains_selector_text_fallback
    ⟨⟨[⟨"Sign in to your account", 10, 20, 100, 30⟩], []⟩,
      true, none, false, false⟩
    "a:contains(\"Sign in\")" "Sign in" CDP.CMethod.auto
    (some (CDP.elemCentre ⟨"Sign in to your account", 10, 20, 100, 30⟩))
    rfl rfl rfl

/-- C6 counterexample: `captureScreenshot()` with no arguments does not
request JPEG at quality 80 — the declared defaults give PNG with the
quality parameter omitted. -/
theorem screenshot_default_not_jpeg80 :
    ¬ (CDP.captureScreenshotDefault.format = CDP.ImgFormat.jpeg
       ∧ CDP.captureScreenshotDefault.quality = some 80) := by
  decide

/-- C6 (amended): `captureScreenshot()` with no arguments defaults to PNG
with no quality value; quality 80 is supplied only when the format is jpeg
and the caller gave no quality; a caller-specified quality is passed
through; and the agent-loop observation capture is JPEG at quality 30. -/
theorem screenshot_defaults_and_agent_quality (q : Nat) :
    CDP.captureScreenshotDefault
      = { format := CDP.ImgFormat.png, quality := none,
          captureBeyondViewport := false }
    ∧ (CDP.captureScreenshot CDP.ImgFormat.jpeg none).quality = some 80
    ∧ (CDP.captureScreenshot CDP.ImgFormat.jpeg (some q)).quality = some q
    ∧ Agent.agentObservationScreenshot.format = CDP.ImgFormat.jpeg
    ∧ Agent.agentObservationScreenshot.quality = some 30 :=
  ⟨rfl, rfl, rfl, rfl, rfl⟩

/-- C7: when the incoming action repeats the previous one in kind and
selector, the 2nd consecutive click gets its click-method hint set to `js`
(its kind unchanged), and the 3rd consecutive click on a selector whose
text contains `btn`, `submit` or `search` is rewritten to `submit`. -/
theorem loop_break_escalation
    (hist1 hist2 : List Agent.HistEntry) (a1 a2 : Bridge.ActMsg)
    (e1 e2 : Agent.HistEntry)
    (hl1 : hist1.getLast? = some e1) (ha1 : e1.action = a1.action)
    (hs1 : e1.selector = Agent.normSelector a1) (hc1 : a1.action = "click")
    (hcount1 : e1.count = 1)
    (hl2 : hist2.getLast? = some e2) (ha2 : e2.action = a2.action)
    (hs2 : e2.selector = Agent.normSelector a2) (hc2 : a2.action = "click")
    (hcount2 : e2.count = 2)
    (hmatch2 : (jsIncludes (Agent.normSelector a2) "btn" ||
        jsIncludes (Agent.normSelector a2) "submit" ||
        jsIncludes (Agent.normSelector a2) "search") = true) :
    (Agent.escalate hist1 a1).1.clickMethod = some "js"
    ∧ (Agent.escalate hist1 a1).1.action = "click"
    ∧ (Agent.escalate hist2 a2).1.action = "submit" := by
  refine ⟨?_, ?_, ?_⟩
  · simp [Agent.escalate, hl1, ha1, hs1, hc1, hcount1]
  · simp [Agent.escalate, hl1, ha1, hs1, hc1, hcount1]
  · simp [Agent.escalate, hl2, ha2, hs2, hc2, hcount2, hmatch2]

/-- Witness for C7: a second and a third consecutive click on `#go-btn`. -/
theorem loop_break_escalation_witness :
    (Agent.escalate [⟨"click", "#go-btn", 1⟩]
        ⟨"click", "#go-btn", "", none, false⟩).1.clickMethod = some "js"
    ∧ (Agent.escalate [⟨"click", "#go-btn", 1⟩]
        ⟨"click", "#go-btn", "", none, false⟩).1.action = "click"
    ∧ (Agent.escalate [⟨"click", "#go-btn", 2⟩]
        ⟨"click", "#go-btn", "", none, false⟩).1.action = "submit" :=
  loop_break_escalation
    [⟨"click", "#go-btn", 1⟩] [⟨"click", "#go-btn", 2⟩]
    ⟨"click", "#go-btn", "", none, false⟩ ⟨"click", "#go-btn", "", none, false⟩
    ⟨"click", "#go-btn", 1⟩ ⟨"click", "#go-btn", 2⟩
    rfl rfl rfl rfl rfl rfl rfl rfl rfl rfl rfl

/-- C8: reconnect attempt `n` (1 ≤ n ≤ 5) is scheduled after exactly
`reconnectDelay * 2 ^ (n - 1)` milliseconds (default base 1000 ms from the
constructor), and once the attempt counter has reached the cap of 5 no
reconnect is scheduled and the error state is emitted. -/
theorem reconnect_backoff
    (cfg : Bridge.ReconnConfig) (n m : Nat)
    (hmax : cfg.maxReconnectAttempts = 5)
    (h1 : 1 ≤ n) (h5 : n ≤ 5) (hm : 5 ≤ m) :
    Bridge.attemptReconnect cfg (n - 1)
      = (some (cfg.reconnectDelay * 2 ^ (n - 1)), false, n)
    ∧ Bridge.attemptReconnect cfg m = (none, true, m)
    ∧ Bridge.mkReconnectDelay none = 1000
    ∧ Bridge.mkMaxReconnectAttempts none = 5 := by
  refine ⟨?_, ?_, rfl, rfl⟩
  · have hlt : ¬ (cfg.maxReconnectAttempts ≤ n - 1) := by omega
    simp only [Bridge.attemptReconnect, hlt, if_false]
    rw [show n - 1 + 1 = n from by omega]
  · have hle : cfg.maxReconnectAttempts ≤ m := by omega
    simp [Bridge.attemptReconnect, hle]

/-- Witness for C8: the third attempt with the default configuration. -/
theorem reconnect_backoff_witness :
    Bridge.attemptReconnect ⟨1000, 5⟩ (3 - 1)
      = (some (1000 * 2 ^ (3 - 1)), false, 3)
    ∧ Bridge.attemptReconnect ⟨1000, 5⟩ 5 = (none, true, 5)
    ∧ Bridge.mkReconnectDelay none = 1000
    ∧ Bridge.mkMaxReconnectAttempts none = 5 :=
  reconnect_backoff ⟨1000, 5⟩ 3 5 rfl (by omega) (by omega) (by omega)

/-- C9 counterexample: appending to an action log that already holds 50
records yields 51 records and keeps the oldest entry in place — the log is
not capped at 50 and nothing is dropped. -/
theorem action_log_not_capped_at_50 :
    (Agent.pushActionRecord
        (List.replicate 50 ⟨"click", "#a", true, "u", none⟩)
        ⟨"type", "#b", true, "u", none⟩).length = 51
    ∧ (Agent.pushActionRecord
        (List.replicate 50 ⟨"click", "#a", true, "u", none⟩)
        ⟨"type", "#b", true, "u", none⟩).head?
      = some ⟨"click", "#a", true, "u", none⟩ := by
  constructor
  · simp [Agent.pushActionRecord]
  · rfl

/-- C9 (amended): the session action log is an unbounded append-only list
within a session: each append adds exactly one record at the end, keeps
every existing record in place, and the log is emptied only by the reset at
session start. -/
theorem action_log_append_unbounded
    (log : List Agent.ActionRecord) (r : Agent.ActionRecord) :
    (Agent.pushActionRecord log r).length = log.length + 1
    ∧ List.take log.length (Agent.pushActionRecord log r) = log
    ∧ (Agent.pushActionRecord log r).getLast? = some r
    ∧ Agent.resetActionLog = [] := by
  refine ⟨?_, ?_, ?_, rfl⟩
  · simp [Agent.pushActionRecord]
  · simp [Agent.pushActionRecord, List.take_left]
  · simp [Agent.pushActionRecord]

/-- C10: the low-level driver operations `type`, `click` and `scroll`
report success for every input — even on a detached driver, where the
underlying `send` itself fails, the failure is not propagated into their
result. -/
theorem driver_ops_always_succeed
    (s s0 : CDP.CState) (oracle oracle0 : String → Bool)
    (text : String) (x y : ℚ) (dx dy : Int)
    (hdet : s0.attached = false) :
    (CDP.typeText s oracle text).1.success = true
    ∧ (CDP.click s oracle x y).1.success = true
    ∧ (CDP.scroll s oracle dx dy).1.success = true
    ∧ (CDP.send s0 oracle0 "Input.insertText").1.success = false
    ∧ (CDP.typeText s0 oracle0 text).1.success = true := by
  refine ⟨rfl, rfl, rfl, ?_, rfl⟩
  simp [CDP.send, hdet]

/-- Witness for C10: a detached driver still reports success for `type`,
`click` and `scroll` while its raw `send` fails. -/
theorem driver_ops_always_succeed_witness :
    (CDP.typeText ⟨false⟩ (fun _ => true) "hello").1.success = true
    ∧ (CDP.click ⟨false⟩ (fun _ => true) 5 7).1.success = true
    ∧ (CDP.scroll ⟨false⟩ (fun _ => true) 0 300).1.success = true
    ∧ (CDP.send ⟨false⟩ (fun _ => true) "Input.insertText").1.success = false
    ∧ (CDP.typeText ⟨false⟩ (fun _ => true) "hello").1.success = true :=
  driver_ops_always_succeed ⟨false⟩ ⟨false⟩ (fun _ => true) (fun _ => true)
    "hello" 5 7 0 300 rfl
